import Mathlib

/-!
Verification development for the Neural_Sage_Bot RAG pipeline.

Shallow embedding of the Python sources:
  - `core_embeddings_service.py`  (embedding cache / backend client)
  - `core_llm_service.py`         (answer generation and continuation protocol)
  - `core_database_manager.py`    (vector store adapter)
  - `core_web_search_service.py`  (web search with backend fallback)
  - `processor_rag_pipeline.py`   (RAG orchestrator)

External effects (HTTP backends, the Chroma index, the LLM) are modelled as
oracle parameters; exceptions are modelled with `Except`; asyncio traces are
modelled as explicit event lists in program order.
-/

namespace NeuralSage

/-! ### Python string primitives

Models of the Python `str` operations the sources use, over `List Char` /
`String` (`String` in Lean is a wrapper around `List Char`). -/

/-- Python `str.strip()`: drop leading and trailing whitespace. -/
def py_strip (s : String) : String :=
  String.mk (((s.data.dropWhile Char.isWhitespace).reverse.dropWhile Char.isWhitespace).reverse)

/-- Python `str.lower()` on one character: the Unicode simple lowercase
mapping, implemented on the blocks that occur in this bot's texts — ASCII
`A`–`Z`, the Latin-1 supplement `À`–`Þ` (minus `×`), Cyrillic `А`–`Я`
(U+0410–U+042F) and `Ѐ`–`Џ` (U+0400–U+040F, including `Ё`) — and the
identity on every other character (on these blocks the mapping is
one-to-one, so the per-character model is exact). -/
def py_lower_char (c : Char) : Char :=
  let n := c.toNat
  if 0x41 ≤ n ∧ n ≤ 0x5A then Char.ofNat (n + 32)
  else if 0xC0 ≤ n ∧ n ≤ 0xDE ∧ n ≠ 0xD7 then Char.ofNat (n + 32)
  else if 0x410 ≤ n ∧ n ≤ 0x42F then Char.ofNat (n + 32)
  else if 0x400 ≤ n ∧ n ≤ 0x40F then Char.ofNat (n + 80)
  else c

/-- Python `str.lower()` (per-character lowercasing). -/
def py_lower (s : String) : String :=
  String.mk (s.data.map py_lower_char)

/-- `leadsWith l p = true` iff `p` is an initial segment of `l`. -/
def leadsWith : List Char → List Char → Bool
  | _, [] => true
  | [], _ :: _ => false
  | a :: as, b :: bs => a == b && leadsWith as bs

/-- Python `str.endswith(suffix)` on char lists. -/
def ends_with (l s : List Char) : Bool :=
  leadsWith l.reverse s.reverse

/-- Python `needle in hay` (substring containment) on char lists. -/
def contains_seq (needle : List Char) : List Char → Bool
  | [] => needle.isEmpty
  | c :: rest => leadsWith (c :: rest) needle || contains_seq needle rest

/-- `continuation.lower() in answer.lower()`: case-insensitive substring test. -/
def ci_substring (needle hay : String) : Bool :=
  contains_seq (py_lower needle).data (py_lower hay).data

/-- Python `s[-n:]` on char lists (the whole list when shorter than `n`). -/
def last_n (n : Nat) (l : List Char) : List Char :=
  l.drop (l.length - n)

/-- Effect of `re.sub(r"\n\n\n+", "\n\n", text)`: every maximal run of
newlines is capped at two.  `n` counts the pending newlines of the current
run. -/
def collapse_nl_aux : Nat → List Char → List Char
  | n, [] => List.replicate (min n 2) '\n'
  | n, c :: rest =>
    if c = '\n' then collapse_nl_aux (n + 1) rest
    else List.replicate (min n 2) '\n' ++ (c :: collapse_nl_aux 0 rest)

/-- Python `line.rstrip()`. -/
def rstrip_line (l : List Char) : List Char :=
  (l.reverse.dropWhile Char.isWhitespace).reverse

/-- `LLMService._clean_answer`: collapse 3+ newlines to 2, rstrip each line,
strip the result; empty input maps to the empty string. -/
def clean_answer (s : String) : String :=
  if s = "" then ""
  else
    let t1 := collapse_nl_aux 0 s.data
    let lines := t1.splitOn '\n'
    py_strip (String.mk (List.intercalate ['\n'] (lines.map rstrip_line)))

/-- Python `s.split("\n\n")` (used when persisting web results). -/
def split_nn : List Char → List (List Char)
  | [] => [[]]
  | '\n' :: '\n' :: rest => [] :: split_nn rest
  | c :: rest =>
    match split_nn rest with
    | [] => [[c]]
    | h :: t => (c :: h) :: t

/-! ### `core_embeddings_service.py` — EmbeddingsService

The cache `self._embed_cache` is a Python dict, i.e. an insertion-ordered
map: assignment to an existing key keeps its position, a fresh key is
appended, `next(iter(d))` is the first (oldest-inserted) key.  We model it
as an association list `List (Int × E)` in insertion order, where `E` is
the (uninterpreted) type of embedding vectors: the service never inspects
vector contents, it only stores and moves them.  Python's `hash` is a
parameter `h : String → Int`; the per-text Ollama embedding backend
(`_call_ollama`, which never raises: every failure is converted to a
default vector) is a parameter `backend : String → E`. -/

/-- Dict lookup `cache[k]` / `k in cache`. -/
def cache_lookup {E : Type} (c : List (Int × E)) (k : Int) : Option E :=
  (c.find? (fun p => p.1 == k)).map (·.2)

/-- Dict assignment `cache[k] = v`: overwrite in place, or append a fresh key. -/
def cache_insert {E : Type} (c : List (Int × E)) (k : Int) (v : E) : List (Int × E) :=
  if c.any (fun p => p.1 == k) then
    c.map (fun p => if p.1 == k then (k, v) else p)
  else c ++ [(k, v)]

/-- `oldest_key = next(iter(cache)); del cache[oldest_key]`: drop the entries
holding the first key (with unique keys, exactly the head). -/
def cache_evict {E : Type} (c : List (Int × E)) : List (Int × E) :=
  match c with
  | [] => []
  | e :: rest => rest.filter (fun p => p.1 != e.1)

/-- One iteration of the insertion loop body acting on the cache:
`cache[hash] = embedding; if len(cache) > cache_size: evict oldest`. -/
def cache_step {E : Type} (cache_size : Nat) (c : List (Int × E)) (k : Int) (v : E) :
    List (Int × E) :=
  let c1 := cache_insert c k v
  if cache_size < c1.length then cache_evict c1 else c1

/-- `EmbeddingsService.embed(texts)`.  Returns the result list (position `i`
holds the vector for `texts[i]`; `Option` mirrors the `[None] * len(texts)`
preallocation) together with the cache after the call.

First pass: each position gets its cache hit, misses are collected as
`(index, text)` in order.  Second pass: `_call_ollama` embeds the miss-set,
then each result is written into the cache and at its original index, with
the size cap enforced after every insertion. -/
def embed {E : Type} (h : String → Int) (backend : String → E) (cache_size : Nat)
    (cache : List (Int × E)) (texts : List String) :
    List (Option E) × List (Int × E) :=
  if texts.isEmpty then ([], cache)
  else
    let embeddings0 : List (Option E) := texts.map (fun t => cache_lookup cache (h t))
    let uncached : List (Nat × String) :=
      texts.enum.filter (fun it => (cache_lookup cache (h it.2)).isNone)
    let new_embeddings : List E := uncached.map (fun it => backend it.2)
    (uncached.zip new_embeddings).foldl
      (fun acc p =>
        (acc.1.set p.1.1 (some p.2), cache_step cache_size acc.2 (h p.1.2) p.2))
      (embeddings0, cache)

/-- `EmbeddingsService.clear_cache()`. -/
def clear_cache {E : Type} (_c : List (Int × E)) : List (Int × E) := []

/-- Modelled from the spec: the vector that index `i` of `embed(texts)`
should correspond to — the cached vector for `texts[i]` on a hit, the
backend vector for `texts[i]` on a miss (for the refinement comparison of
the index-preservation property). -/
def embed_expected {E : Type} (h : String → Int) (backend : String → E)
    (cache : List (Int × E)) (t : String) : E :=
  match cache_lookup cache (h t) with
  | some v => v
  | none => backend t

/-! ### `config.py` — mode configuration

`MODE_CONFIGS` is built from three default dicts, each overridable from the
environment; the orchestrator-relevant fields are modelled below.  A
`ModeTable` stands for one concrete loading of `MODE_CONFIGS` (environment
overrides included), with the `_DEFAULT_*` dicts as the default table. -/

/-- The dynamic fields of one mode's configuration dict. -/
structure ModeCfg where
  numPredict : Nat
  temperature : ℚ
  topK : Nat
  dbSearch : Bool
  webSearch : Bool
  webSearchResults : Nat
deriving DecidableEq

/-- One loading of `MODE_CONFIGS` (keys "short", "default", "detailed"). -/
structure ModeTable where
  short : ModeCfg
  dflt : ModeCfg
  detailed : ModeCfg
deriving DecidableEq

/-- `_DEFAULT_SHORT` of `config.py`. -/
def default_short_cfg : ModeCfg :=
  { numPredict := 300, temperature := 0.2, topK := 2,
    dbSearch := true, webSearch := true, webSearchResults := 2 }

/-- `_DEFAULT_DEFAULT` of `config.py`. -/
def default_default_cfg : ModeCfg :=
  { numPredict := 1000, temperature := 0.5, topK := 3,
    dbSearch := true, webSearch := true, webSearchResults := 3 }

/-- `_DEFAULT_DETAILED` of `config.py`. -/
def default_detailed_cfg : ModeCfg :=
  { numPredict := 2000, temperature := 0.7, topK := 5,
    dbSearch := true, webSearch := true, webSearchResults := 5 }

/-- `MODE_CONFIGS` with no environment overrides. -/
def default_mode_table : ModeTable :=
  { short := default_short_cfg, dflt := default_default_cfg,
    detailed := default_detailed_cfg }

/-- `MODE_CONFIGS.get(mode, MODE_CONFIGS['default'])`. -/
def lookup_mode (tbl : ModeTable) (mode : String) : ModeCfg :=
  if mode = "short" then tbl.short
  else if mode = "default" then tbl.dflt
  else if mode = "detailed" then tbl.detailed
  else tbl.dflt

/-! ### `core_llm_service.py` — LLMService

`_call_ollama` is a network call returning the stripped `response` field,
with every transport error converted to `""`; we model the backend as an
oracle `Nat → String` indexed by call number (call 0 is the initial
generation, calls 1, 2, … the continuations), to whose output the
`.strip()` of `_call_ollama` is applied. -/

/-- `LLMService.SYSTEM_PROMPT`. -/
def SYSTEM_PROMPT : String :=
  "Ты полезный помощник AI на русском языке.

    ГЛАВНОЕ ПРАВИЛО: Всегда отвечай ТОЛЬКО на РУССКОМ языке. Никаких исключений.

    Если в вопросе английский текст - переводи его и отвечай по-русски.
    Если нужны примеры кода на английском - оставляй код как есть, но описание пиши на русском.

    Инструкции:
    1. Отвечай четко и по существу
    2. Используй предоставленный контекст если дан
    3. Структурируй ответ (заголовки, списки при необходимости)
    4. Если приводишь код или команды - оборачивай в ```python``` или ```bash```
    5. Будь вежлив и конструктивен
    6. КРИТИЧНО: ответ ПОЛНОСТЬЮ на русском языке!

    Язык: РУССКИЙ (обязательно)"

/-- `INCOMPLETE_THRESHOLD = 0.85` (as a rational). -/
def INCOMPLETE_THRESHOLD : ℚ := 0.85

/-- `MAX_CONTINUATION_RETRIES = 2`. -/
def MAX_CONTINUATION_RETRIES : Nat := 2

/-- The `proper_endings` tuple of `_looks_incomplete` ("\x7d" is the closing
curly brace). -/
def proper_endings : List String :=
  [".", "!", "?", "```", "`", "\"", "»", ")", "]", "\x7d"]

/-- `LLMService._looks_incomplete(text, max_tokens)`.  The source computes
`est_tokens = len(text) / 3.5`, `ratio = est_tokens / max_tokens` (`0.0`
when `max_tokens` is not positive) and tests `ratio > 0.85`; in exact
arithmetic this is, for positive `max_tokens`, equivalent to the integer
test `40 * len(text) > 119 * max_tokens` used here (see
`looks_incomplete_ratio` below), which keeps the definition
kernel-computable. -/
def looks_incomplete (text : String) (max_tokens : Nat) : Bool :=
  if text = "" then false
  else
    let tail := last_n 40 (py_strip text).data
    if proper_endings.any (fun e => ends_with tail e.data) then false
    else if 0 < max_tokens then decide (119 * max_tokens < 40 * text.length)
    else false

/-- Certifies the integer scaling inside `looks_incomplete`: for positive
`max_tokens`, `(len / 3.5) / max_tokens > 0.85` (exact rational arithmetic)
is exactly `119 * max_tokens < 40 * len`. -/
theorem looks_incomplete_ratio (len max_tokens : Nat) (hm : 0 < max_tokens) :
    (INCOMPLETE_THRESHOLD < ((len : ℚ) / 3.5) / (max_tokens : ℚ)) ↔
      119 * max_tokens < 40 * len := by
  have hm' : (0 : ℚ) < (max_tokens : ℚ) := by exact_mod_cast hm
  rw [INCOMPLETE_THRESHOLD, lt_div_iff₀ hm', lt_div_iff₀ (by norm_num : (0:ℚ) < 3.5)]
  constructor
  · intro hlt
    have : (119 : ℚ) * max_tokens < 40 * len := by nlinarith
    exact_mod_cast this
  · intro hlt
    have : (119 : ℚ) * max_tokens < 40 * len := by exact_mod_cast hlt
    nlinarith

/-- One recorded request to `_call_ollama`. -/
structure LLMCall where
  prompt : String
  maxTokens : Nat
  temperature : ℚ
  topK : Nat
deriving DecidableEq

/-- The continuation-framed prompt built inside the retry loop. -/
def cont_prompt (answer : String) : String :=
  SYSTEM_PROMPT ++ "\n\n" ++
  "[Пользователь просит подробный ответ. " ++
  "Продолжи ответ естественно, без повторений. " ++
  "Если ответ уже закончен логично, просто скажи что он полный.]" ++ "\n\n" ++
  "ПРЕДЫДУЩИЙ ОТВЕТ (может быть обрезан):\n" ++ answer

/-- The `while` continuation loop of `LLMService.generate`, with the
remaining retry budget (`MAX_CONTINUATION_RETRIES - retries`) as fuel and
`idx` the next oracle call number.  Returns the final answer and the list of
continuation calls issued. -/
def cont_loop (oracle : Nat → String) (enable : Bool) (max_tokens : Nat)
    (temp : ℚ) (topk : Nat) : Nat → Nat → String → String × List LLMCall
  | 0, _, answer => (answer, [])
  | fuel + 1, idx, answer =>
    if enable && looks_incomplete answer max_tokens then
      let call : LLMCall := ⟨cont_prompt answer, max_tokens / 2, temp, topk⟩
      let continuation := py_strip (oracle idx)
      if continuation = "" then (answer, [call])
      else
        let continuation := clean_answer continuation
        if ci_substring continuation answer || decide (continuation.length < 50) then
          (answer, [call])
        else
          let next := cont_loop oracle enable max_tokens temp topk fuel (idx + 1)
            (answer ++ "\n\n" ++ continuation)
          (next.1, call :: next.2)
    else (answer, [])

/-- `LLMService.generate(prompt, context, mode)` (the `context` argument is
unused by the source).  Returns the final answer together with every
`_call_ollama` request issued, in order. -/
def generate (tbl : ModeTable) (oracle : Nat → String) (prompt : String)
    (mode0 : String) : String × List LLMCall :=
  let mode := if mode0 = "short" || mode0 = "default" || mode0 = "detailed"
    then mode0 else "default"
  let cfg := lookup_mode tbl mode
  let max_tokens0 := cfg.numPredict
  let max_tokens := if mode = "short" then min max_tokens0 120 else max_tokens0
  let full_prompt := SYSTEM_PROMPT ++ "\n\n" ++ prompt
  let call0 : LLMCall := ⟨full_prompt, max_tokens, cfg.temperature, cfg.topK⟩
  let answer0 := py_strip (oracle 0)
  if answer0 = "" then ("", [call0])
  else
    let answer := clean_answer answer0
    let enable := mode = "default" || mode = "detailed"
    let res := cont_loop oracle enable max_tokens cfg.temperature cfg.topK
      MAX_CONTINUATION_RETRIES 1 answer
    (res.1, call0 :: res.2)

/-! ### `core_database_manager.py` — DatabaseManager

The Chroma collection is an external capability.  `search` wraps its whole
body in `try/except` and returns `""` on any exception; the query-embedding
call and the index query are oracles returning `Except Unit _`
(`Except.error ()` = the call raised).  The `results['distances'][0][i]` /
`results['metadatas'][0][i]` accesses can themselves raise `IndexError`
(caught by the same handler), hence the `Except`-valued formatting fold. -/

/-- The fields of one Chroma `collection.query` reply that `search` reads:
the documents of the single query, the `source` metadata value per document
(`none` = the `source` key is absent), and the cosine distances.  The outer
`Option`s model the `'metadatas' in results` / `'distances' in results`
membership tests. -/
structure QueryResult where
  documents : List String
  metadatas : Option (List (Option String))
  distances : Option (List ℚ)

/-- `CHROMA`-side similarity filter threshold used by `search`. -/
def SIMILARITY_CUTOFF : ℚ := 0.35

/-- The `for i, doc in enumerate(results['documents'][0])` loop of `search`:
builds the `valid_docs` list, raising (`Except.error`) on an out-of-range
`distances`/`metadatas` access exactly where Python would. -/
def search_fold (dists : Option (List ℚ)) (metas : Option (List (Option String))) :
    Nat → List String → Except Unit (List String)
  | _, [] => Except.ok []
  | i, doc :: rest =>
    match (match dists with
           | none => Except.ok (0 : ℚ)
           | some l => if h : i < l.length then Except.ok l[i] else Except.error ()) with
    | Except.error e => Except.error e
    | Except.ok dist =>
      let similarity := 1 - dist
      if SIMILARITY_CUTOFF ≤ similarity then
        match (match metas with
               | none => Except.ok (none : Option String)
               | some l => if h : i < l.length then Except.ok l[i] else Except.error ()) with
        | Except.error e => Except.error e
        | Except.ok meta =>
          match search_fold dists metas (i + 1) rest with
          | Except.error e => Except.error e
          | Except.ok tail =>
            Except.ok (("[Источник: " ++ meta.getD "unknown" ++ "]\n" ++ doc) :: tail)
      else
        search_fold dists metas (i + 1) rest

/-- `DatabaseManager.search(query, top_k)`.  `count` is `collection.count()`,
`embedQ` the `embeddings_service.embed([query])` call (returning the list of
embeddings for the one-element batch), `queryIdx` the `collection.query`
call. -/
def db_search (count : Nat) (embedQ : String → Except Unit (List (List ℚ)))
    (queryIdx : List ℚ → Nat → Except Unit QueryResult)
    (query : String) (top_k : Nat) : String :=
  if py_strip query = "" then ""
  else if count = 0 then ""
  else
    match embedQ query with
    | Except.error _ => ""
    | Except.ok qe_list =>
      match qe_list with
      | [] => ""
      | qe :: _ =>
        if qe = [] then ""
        else
          match queryIdx qe top_k with
          | Except.error _ => ""
          | Except.ok results =>
            if results.documents = [] then ""
            else
              match search_fold results.distances results.metadatas 0 results.documents with
              | Except.error _ => ""
              | Except.ok valid_docs => String.intercalate "\n\n" valid_docs

/-- Modelled from the spec: the filter-and-format pass that `search` should
perform on the index's reply — keep exactly the results with
`1 - distance ≥ 0.35`, format each as `"[Источник: {source}]\n{text}"`, in
the index's order (for the refinement comparison). -/
def search_spec (docs : List String) (dists : List ℚ) (metas : List (Option String)) :
    List String :=
  (docs.zip (dists.zip metas)).filterMap fun p =>
    if SIMILARITY_CUTOFF ≤ 1 - p.2.1 then
      some ("[Источник: " ++ p.2.2.getD "unknown" ++ "]\n" ++ p.1)
    else none

/-! #### Write-lock traces

`add_documents` and `delete_old_documents` are `async` methods whose bodies
sit inside `async with self.write_lock`; `clear` and `search` never mention
the lock.  Each method is abstracted to its sequence of lock and collection
operations, in program order. -/

/-- Lock and collection events of one DatabaseManager method. -/
inductive DBEvent
  | lockAcquire
  | lockRelease
  | collectionAdd (n : Nat)
  | collectionDelete (n : Nat)
  | collectionGet
  | collectionCount
  | collectionQuery
deriving DecidableEq

/-- The `processed_docs` normalisation of `add_documents`: strip each text,
keep those whose stripped length exceeds 10. -/
def processed_docs (documents : List String) : List String :=
  (documents.map py_strip).filter (fun t => decide (10 < t.length))

/-- Event trace of `DatabaseManager.add_documents(documents, source)`:
the empty-input early return happens before the lock; inside the lock the
collection is touched only when normalisation leaves documents and the
embedding step succeeds (`embed_ok` abstracts "embeddings service present
and embedding count matches"). -/
def add_documents_trace (documents : List String) (embed_ok : Bool) : List DBEvent :=
  if documents = [] then []
  else
    [DBEvent.lockAcquire] ++
    (let pd := processed_docs documents
     if pd = [] then []
     else if embed_ok then [DBEvent.collectionAdd pd.length]
     else []) ++
    [DBEvent.lockRelease]

/-- Event trace of `DatabaseManager.delete_old_documents(days)`:
`collection.get()` and the conditional `collection.delete(ids=old_ids)`,
all inside the lock (`old_count` = number of documents older than the
cutoff). -/
def delete_old_trace (old_count : Nat) : List DBEvent :=
  [DBEvent.lockAcquire, DBEvent.collectionGet] ++
  (if 0 < old_count then [DBEvent.collectionDelete old_count] else []) ++
  [DBEvent.lockRelease]

/-- Event trace of `DatabaseManager.clear()`: `collection.get()` then, when
documents exist, `collection.delete(ids=all_ids)` — no lock anywhere. -/
def clear_trace (doc_count : Nat) : List DBEvent :=
  [DBEvent.collectionGet] ++
  (if 0 < doc_count then [DBEvent.collectionDelete doc_count] else [])

/-- Event trace of `DatabaseManager.search(query, top_k)`: count check then
index query, no lock. -/
def search_trace (blank : Bool) (count : Nat) : List DBEvent :=
  if blank then []
  else [DBEvent.collectionCount] ++ (if count = 0 then [] else [DBEvent.collectionQuery])

/-- A collection event that mutates the store. -/
def mutating_event : DBEvent → Bool
  | DBEvent.collectionAdd _ => true
  | DBEvent.collectionDelete _ => true
  | _ => false

/-- `mutations_locked held tr = true` iff every mutating collection event of
`tr` happens while the write lock is held (`held` = lock state at entry). -/
def mutations_locked : Bool → List DBEvent → Bool
  | _, [] => true
  | _, DBEvent.lockAcquire :: rest => mutations_locked true rest
  | _, DBEvent.lockRelease :: rest => mutations_locked false rest
  | held, e :: rest => (!mutating_event e || held) && mutations_locked held rest

/-! ### `core_web_search_service.py` — WebSearchService

HTTP and HTML parsing are external; each backend's oracle input is the list
of candidate items its selector produces from the response body (`none` for
the whole backend = the request or parse raised, or DDG's non-200 status —
the `except` arm returning `[]`).  The per-item extraction and filtering
below is translated from each backend's loop body. -/

/-- One web search hit `{title, url, snippet}`. -/
structure SearchResult where
  title : String
  url : String
  snippet : String
deriving DecidableEq

/-- One candidate row of DuckDuckGo Lite (`soup.find_all('tr')[1:]`):
number of `td` cells, the first cell's link (text, href) when present, and
the second cell's text. -/
structure DDGRow where
  cellsCount : Nat
  link : Option (String × String)
  snippetText : String

/-- One candidate item of Bing (`soup.select('li.b_algo')`): the `h2 > a`
link (text, href) when present, and the `p` element's text when present. -/
structure BingItem where
  link : Option (String × String)
  para : Option String

/-- One candidate item of Google (`soup.select('div.g')`): the first `a`'s
href when present, the `h3` text when present, and the snippet element's
text when present. -/
structure GoogleItem where
  link : Option String
  h3 : Option String
  snippetText : Option String

/-- `_search_ddg_lite` result construction: requires ≥ 2 cells and a link;
keeps an entry iff title and url are non-empty and the stripped snippet is
longer than 20 characters; truncates to `max_results`. -/
def ddg_lite_results (rows : List DDGRow) (max_results : Nat) : List SearchResult :=
  (rows.filterMap fun r =>
    if 2 ≤ r.cellsCount then
      match r.link with
      | some l =>
        let title := py_strip l.1
        let url := l.2
        let snippet := py_strip r.snippetText
        if title ≠ "" && url ≠ "" && decide (20 < snippet.length) then
          some ⟨title, url, snippet⟩
        else none
      | none => none
    else none).take max_results

/-- `_search_bing` result construction: the selector list is truncated to
`max_results` first; an entry is kept whenever both the link and the `p`
element exist — no title/url/snippet-length checks. -/
def bing_results (items : List BingItem) (max_results : Nat) : List SearchResult :=
  (items.take max_results).filterMap fun it =>
    match it.link, it.para with
    | some l, some p => some ⟨py_strip l.1, l.2, py_strip p⟩
    | _, _ => none

/-- `_search_google` result construction: the selector list is truncated to
`max_results` first; requires link and `h3`; keeps an entry iff the
stripped snippet is non-empty and longer than 20 characters — no title/url
emptiness checks. -/
def google_results (items : List GoogleItem) (max_results : Nat) : List SearchResult :=
  (items.take max_results).filterMap fun g =>
    match g.link, g.h3 with
    | some href, some h =>
      let snippet := match g.snippetText with
        | some s => py_strip s
        | none => ""
      if snippet ≠ "" && decide (20 < snippet.length) then
        some ⟨py_strip h, href, snippet⟩
      else none
    | _, _ => none

/-- `_search_ddg_lite` as a whole: `none` = the request/parse raised or the
status was non-200 (the `except` arm / early return yields `[]`). -/
def search_ddg_lite (ddg : Option (List DDGRow)) (max_results : Nat) : List SearchResult :=
  match ddg with
  | none => []
  | some rows => ddg_lite_results rows max_results

/-- `_search_bing` as a whole (`none` = its `except` arm). -/
def search_bing (bing : Option (List BingItem)) (max_results : Nat) : List SearchResult :=
  match bing with
  | none => []
  | some items => bing_results items max_results

/-- `_search_google` as a whole (`none` = its `except` arm). -/
def search_google (google : Option (List GoogleItem)) (max_results : Nat) : List SearchResult :=
  match google with
  | none => []
  | some items => google_results items max_results

/-- `WebSearchService.search(query, num_results)`: DuckDuckGo Lite first,
then Bing, then Google; the first non-empty backend result is truncated to
`num_results`; everything failing yields `[]` (the outer `try/except` also
yields `[]` and is subsumed by the `none` backend inputs). -/
def web_search (ddg : Option (List DDGRow)) (bing : Option (List BingItem))
    (google : Option (List GoogleItem)) (max_results num_results : Nat) :
    List SearchResult :=
  let r1 := search_ddg_lite ddg max_results
  if r1 ≠ [] then r1.take num_results
  else
    let r2 := search_bing bing max_results
    if r2 ≠ [] then r2.take num_results
    else
      let r3 := search_google google max_results
      if r3 ≠ [] then r3.take num_results
      else []

/-! ### `processor_rag_pipeline.py` — RAGPipeline

`process` is modelled with oracles for the three collaborators
(`db.search`, `web_search.search`, `llm.generate`) and returns the answer
together with the trace of collaborator calls in program order: the `await`
on `_add_web_results_to_db` places the persistence event inside the request
path, before answer generation.  `persist_ok` is whether the awaited
`add_documents` succeeds; its failure is caught and logged inside
`_add_web_results_to_db`. -/

/-- Collaborator calls issued by one `process` invocation, in program
order. -/
inductive PipeEvent
  | dbSearch (topK : Nat)
  | webSearch (n : Nat)
  | persist (source : String) (ndocs : Nat) (ok : Bool)
  | llmGenerate (mode : String)
deriving DecidableEq

/-- `process`'s fixed reply to a blank query. -/
def empty_query_msg : String := "Пустой запрос. Напиши что-нибудь!"

/-- `process`'s fixed reply when no context was found anywhere. -/
def no_info_msg : String :=
  "❌ Я не нашел информации ни в базе знаний, ни в интернете. Попробуй переформулировать запрос."

/-- `_search_web`'s per-result block: `"{i}. {title}\n{snippet}\n"` when both
title and snippet are non-empty after stripping, then
`"Источник: {url}\n"` when the url is non-empty, then a blank line. -/
def format_web_entry (i : Nat) (r : SearchResult) : String :=
  (if py_strip r.title ≠ "" && py_strip r.snippet ≠ "" then
      toString i ++ ". " ++ py_strip r.title ++ "\n" ++ py_strip r.snippet ++ "\n"
    else "") ++
  (if r.url ≠ "" then "Источник: " ++ r.url ++ "\n" else "") ++
  "\n"

/-- `RAGPipeline._search_web` body after the backend call: enumerate from 1,
concatenate the blocks, strip the total. -/
def format_web (results : List SearchResult) : String :=
  py_strip (String.join ((results.enumFrom 1).map (fun p => format_web_entry p.1 p.2)))

/-- `_add_web_results_to_db`'s document extraction: split the web context on
blank lines, strip each part, keep the stripped parts that are non-empty
and longer than 20 characters. -/
def web_docs (web_context : String) : List String :=
  ((split_nn web_context.data).map (fun p => py_strip (String.mk p))).filter
    (fun t => t ≠ "" && decide (20 < t.length))

/-- `_build_short_prompt(query, context)`. -/
def build_short_prompt (query context : String) : String :=
  if context = "" then
    "Ты помощник. Дай краткий, прямой ответ в 2-3 предложениях.\n    Язык: РУССКИЙ\n\n    Вопрос: "
      ++ query ++ "\n\n    Ответ (кратко, 2-3 предложения):"
  else
    "Дай краткий, прямой ответ на основе информации ниже.\n    Ответ должен быть ровно 2-3 предложениями, выделяй самое важное.\n    Язык: РУССКИЙ\n\n    Информация:\n    "
      ++ context ++ "\n\n    Вопрос: " ++ query ++ "\n\n    Ответ (кратко, 2-3 предложения):"

/-- `_build_default_prompt(query, context)`. -/
def build_default_prompt (query context : String) : String :=
  if context = "" then
    "Ты помощник. Дай полный и понятный ответ.\n    Объем: 800-1000 слов.\n    Язык: РУССКИЙ\n\n    Вопрос: "
      ++ query ++ "\n\n    Ответ (полный, с примерами):"
  else
    "Дай полный и понятный ответ на вопрос.\n    Используй информацию ниже, добавляй примеры если они помогают.\n    Структурируй ответ, используй списки и подзаголовки где необходимо.\n    Объем: 800-1000 слов.\n    Язык: РУССКИЙ\n\n    Информация:\n    "
      ++ context ++ "\n\n    Вопрос: " ++ query ++ "\n\n    Ответ (полный, с примерами и структурой):"

/-- `_build_detailed_prompt(query, context)`. -/
def build_detailed_prompt (query context : String) : String :=
  if context = "" then
    "Ты эксперт. Дай ОЧЕНЬ подробный и развёрнутый ответ.\n    Объем: 1500-2500 слов.\n    Язык: РУССКИЙ\n\n    Вопрос: "
      ++ query ++ "\n\n    Подробный ответ (со всеми деталями, примерами, кодом):"
  else
    "Дай ОЧЕНЬ подробный и развёрнутый ответ на вопрос.\n    Объясни каждый аспект, добавь примеры кода если это помогает.\n    Покрой все стороны темы, будь творческим в подходе.\n    Используй таблицы, списки, подзаголовки для структурирования.\n    Ответ должен быть информативным, полезным и полным.\n    Объем: 1500-2500 слов.\n    Язык: РУССКИЙ\n\n    Информация:\n    "
      ++ context ++ "\n\n    Вопрос: " ++ query ++ "\n\n    Подробный ответ (со всеми деталями, примерами, таблицами, кодом):"

/-- `_generate_answer`'s prompt dispatch on the mode. -/
def build_prompt (mode query context : String) : String :=
  if mode = "short" then build_short_prompt query context
  else if mode = "default" then build_default_prompt query context
  else build_detailed_prompt query context

/-- `_search_database`'s wrapper around `db.search(query, top_k=10)`:
pass the result through when non-blank, else `""`. -/
def rag_db_context (dbOracle : String → Nat → String) (query : String) : String :=
  let results_text := dbOracle query 10
  if py_strip results_text ≠ "" then results_text else ""

/-- Steps 1–2 of `process` (database search, web-search gating, context
assembly and the awaited persistence): returns the assembled context and
the retrieval-phase event trace. -/
def rag_retrieve (tbl : ModeTable) (dbOracle : String → Nat → String)
    (webOracle : Nat → List SearchResult) (persist_ok : Bool)
    (query : String) (mode : String) : String × List PipeEvent :=
  let mode_config := lookup_mode tbl mode
  let db_results := rag_db_context dbOracle query
  let ev0 : List PipeEvent := [PipeEvent.dbSearch 10]
  let db_content_len := db_results.length
  -- `db_context` is `db_results` in every branch of the decision ladder
  -- (when the length is 0, `db_results` is already `""`).
  let db_context := db_results
  let need_web := ¬ (1200 < db_content_len)
  if need_web then
    let num_web_results := mode_config.webSearchResults
    let web_results := format_web (webOracle num_web_results)
    let ev := ev0 ++ [PipeEvent.webSearch num_web_results]
    if web_results ≠ "" then
      let ctx := if db_context ≠ "" then
          db_context ++ "\n\n=== ДОПОЛНИТЕЛЬНО ИЗ ИНТЕРНЕТА ===\n\n" ++ web_results
        else web_results
      let documents := web_docs web_results
      let ev' := ev ++ (if documents ≠ [] then
          [PipeEvent.persist "web_auto" documents.length persist_ok] else [])
      (ctx, ev')
    else (db_context, ev)
  else (db_context, ev0)

/-- `mode = user_mode or 'default'`: Python `or` maps both `None` and the
empty string to `"default"`. -/
def rag_mode (user_mode : Option String) : String :=
  match user_mode with
  | none => "default"
  | some m => if m = "" then "default" else m

/-- `RAGPipeline.process(query, user_mode)`. -/
def rag_process (tbl : ModeTable) (dbOracle : String → Nat → String)
    (webOracle : Nat → List SearchResult)
    (llmOracle : String → String → String → String) (persist_ok : Bool)
    (query : String) (user_mode : Option String) : String × List PipeEvent :=
  if py_strip query = "" then (empty_query_msg, [])
  else
    let mode := rag_mode user_mode
    let r := rag_retrieve tbl dbOracle webOracle persist_ok query mode
    if r.1 = "" then (no_info_msg, r.2)
    else
      let prompt := build_prompt mode query r.1
      let answer := llmOracle prompt r.1 mode
      (answer, r.2 ++ [PipeEvent.llmGenerate mode])

/-! ## Supporting lemmas -/

/-- The retrieval trace is one of: database only; database then web; database,
web, then one persistence call tagged `"web_auto"` carrying the given
`persist_ok` flag. -/
theorem rag_retrieve_trace_cases (tbl : ModeTable) (dbOracle : String → Nat → String)
    (webOracle : Nat → List SearchResult) (pok : Bool) (query mode : String) :
    (rag_retrieve tbl dbOracle webOracle pok query mode).2 = [PipeEvent.dbSearch 10] ∨
    (∃ n, (rag_retrieve tbl dbOracle webOracle pok query mode).2 =
      [PipeEvent.dbSearch 10, PipeEvent.webSearch n]) ∨
    (∃ n k, (rag_retrieve tbl dbOracle webOracle pok query mode).2 =
      [PipeEvent.dbSearch 10, PipeEvent.webSearch n, PipeEvent.persist "web_auto" k pok]) := by
  unfold rag_retrieve
  dsimp only
  split
  · split
    · split <;> split <;>
        first
          | (right; right; exact ⟨_, _, rfl⟩)
          | (right; left; exact ⟨_, rfl⟩)
    · right; left; exact ⟨_, rfl⟩
  · left; rfl

/-- The trace of `process` is the empty trace (blank query), the retrieval
trace alone (no context found), or the retrieval trace followed by the one
generation call. -/
theorem rag_process_snd_cases (tbl : ModeTable) (dbOracle : String → Nat → String)
    (webOracle : Nat → List SearchResult)
    (llmOracle : String → String → String → String) (pok : Bool)
    (query : String) (um : Option String) :
    (rag_process tbl dbOracle webOracle llmOracle pok query um).2 = [] ∨
    (rag_process tbl dbOracle webOracle llmOracle pok query um).2 =
      (rag_retrieve tbl dbOracle webOracle pok query (rag_mode um)).2 ∨
    (rag_process tbl dbOracle webOracle llmOracle pok query um).2 =
      (rag_retrieve tbl dbOracle webOracle pok query (rag_mode um)).2 ++
        [PipeEvent.llmGenerate (rag_mode um)] := by
  unfold rag_process
  dsimp only
  split
  · left; rfl
  · split
    · right; left; rfl
    · right; right; rfl

/-- The assembled context does not depend on the persistence outcome. -/
theorem rag_retrieve_fst_indep (tbl : ModeTable) (dbOracle : String → Nat → String)
    (webOracle : Nat → List SearchResult) (p p' : Bool) (query mode : String) :
    (rag_retrieve tbl dbOracle webOracle p query mode).1 =
      (rag_retrieve tbl dbOracle webOracle p' query mode).1 := by
  unfold rag_retrieve
  dsimp only
  split
  · split <;> rfl
  · rfl

/-! ## Claim C8 — write-lock serialization -/

/-- Claim C8 counterexample: `DatabaseManager.clear` mutates the collection
(`collection.delete`) without ever acquiring the write lock, refuting
"every mutating vector-store operation — addDocuments, deleteOldDocuments,
and clear — acquires the single store-wide write lock before touching the
collection" at the concrete state of a 3-document store. -/
theorem clear_lock_counterexample :
    (clear_trace 3).contains DBEvent.lockAcquire = false ∧
    (clear_trace 3).contains (DBEvent.collectionDelete 3) = true ∧
    mutations_locked false (clear_trace 3) = false := by decide

/-- Claim C8 (amended): `add_documents` and `delete_old_documents` perform
every collection mutation while holding the store-wide write lock (so two
such writers are serialized), while `search` and `clear` never touch the
lock. -/
theorem write_lock_amended (documents : List String) (embed_ok : Bool)
    (old_count : Nat) (blank : Bool) (count dc : Nat) :
    mutations_locked false (add_documents_trace documents embed_ok) = true ∧
    mutations_locked false (delete_old_trace old_count) = true ∧
    (search_trace blank count).contains DBEvent.lockAcquire = false ∧
    (clear_trace dc).contains DBEvent.lockAcquire = false := by
  refine ⟨?_, ?_, ?_, ?_⟩
  · unfold add_documents_trace
    split
    · rfl
    · dsimp only
      split
      · rfl
      · split <;> rfl
  · unfold delete_old_trace
    split <;> rfl
  · unfold search_trace
    split
    · rfl
    · split <;> rfl
  · unfold clear_trace
    split <;> rfl

/-! ## Claim C2 — persistence of web results -/

/-- Claim C2 counterexample: with an empty store and a successful web
search, the persistence call (`await self._add_web_results_to_db(...)`,
source `"web_auto"`) completes strictly before the answer-generation call in
the request's own sequential trace — the user-visible response waits on the
persistence, which is therefore not a detached fire-and-forget task. -/
theorem persist_blocking_counterexample :
    (rag_process default_mode_table (fun _ _ => "")
        (fun _ => [⟨"Заголовок результата", "http://example.com",
          "Достаточно длинный фрагмент текста для фильтра"⟩])
        (fun _ _ _ => "ответ") true "вопрос" none).2 =
      [PipeEvent.dbSearch 10, PipeEvent.webSearch 3,
        PipeEvent.persist "web_auto" 1 true, PipeEvent.llmGenerate "default"] ∧
    (∃ pre, (rag_process default_mode_table (fun _ _ => "")
        (fun _ => [⟨"Заголовок результата", "http://example.com",
          "Достаточно длинный фрагмент текста для фильтра"⟩])
        (fun _ _ _ => "ответ") true "вопрос" none).2 =
          pre ++ [PipeEvent.llmGenerate "default"] ∧
      PipeEvent.persist "web_auto" 1 true ∈ pre) :=
  ⟨by decide,
    ⟨[PipeEvent.dbSearch 10, PipeEvent.webSearch 3, PipeEvent.persist "web_auto" 1 true],
      by decide, by decide⟩⟩

/-- Claim C2 (amended): web results that survive formatting are persisted
with source tag `"web_auto"` by an awaited call that completes before answer
generation (the response waits for it); a persistence failure never changes
the returned answer (it is only logged inside `_add_web_results_to_db`). -/
theorem persist_amended (tbl : ModeTable) (dbOracle : String → Nat → String)
    (webOracle : Nat → List SearchResult)
    (llmOracle : String → String → String → String)
    (query : String) (um : Option String) (mode : String) (pok : Bool) :
    (rag_process tbl dbOracle webOracle llmOracle true query um).1 =
      (rag_process tbl dbOracle webOracle llmOracle false query um).1 ∧
    (∀ s n ok, PipeEvent.persist s n ok ∈
        (rag_process tbl dbOracle webOracle llmOracle pok query um).2 → s = "web_auto") ∧
    (∃ pre post, (rag_process tbl dbOracle webOracle llmOracle pok query um).2 = pre ++ post ∧
      (∀ s n ok, PipeEvent.persist s n ok ∉ post) ∧
      (∀ m, PipeEvent.llmGenerate m ∉ pre)) ∧
    (¬ (1200 < (rag_db_context dbOracle query).length) →
      format_web (webOracle (lookup_mode tbl mode).webSearchResults) ≠ "" →
      web_docs (format_web (webOracle (lookup_mode tbl mode).webSearchResults)) ≠ [] →
      PipeEvent.persist "web_auto"
          (web_docs (format_web (webOracle (lookup_mode tbl mode).webSearchResults))).length pok ∈
        (rag_retrieve tbl dbOracle webOracle pok query mode).2) := by
  have hsrc : ∀ s n ok mode',
      PipeEvent.persist s n ok ∈ (rag_retrieve tbl dbOracle webOracle pok query mode').2 →
        s = "web_auto" := by
    intro s n ok mode' hm
    rcases rag_retrieve_trace_cases tbl dbOracle webOracle pok query mode' with
      h | ⟨n', h⟩ | ⟨n', k, h⟩ <;> rw [h] at hm <;> simp_all
  have hnollm : ∀ m' mode',
      PipeEvent.llmGenerate m' ∉ (rag_retrieve tbl dbOracle webOracle pok query mode').2 := by
    intro m' mode' hm
    rcases rag_retrieve_trace_cases tbl dbOracle webOracle pok query mode' with
      h | ⟨n', h⟩ | ⟨n', k, h⟩ <;> rw [h] at hm <;> simp_all
  refine ⟨?_, ?_, ?_, ?_⟩
  · unfold rag_process
    split
    · rfl
    · dsimp only
      rw [rag_retrieve_fst_indep tbl dbOracle webOracle true false]
      split
      · rfl
      · rfl
  · intro s n ok hmem
    rcases rag_process_snd_cases tbl dbOracle webOracle llmOracle pok query um with
      h | h | h <;> rw [h] at hmem
    · simp at hmem
    · exact hsrc s n ok _ hmem
    · rcases List.mem_append.mp hmem with hmem' | hmem'
      · exact hsrc s n ok _ hmem'
      · simp at hmem'
  · rcases rag_process_snd_cases tbl dbOracle webOracle llmOracle pok query um with
      h | h | h
    · exact ⟨[], [], by rw [h]; rfl, by simp, by simp⟩
    · refine ⟨(rag_retrieve tbl dbOracle webOracle pok query (rag_mode um)).2, [],
        by rw [h]; simp, by simp, ?_⟩
      intro m' hm'
      exact hnollm m' _ hm'
    · refine ⟨(rag_retrieve tbl dbOracle webOracle pok query (rag_mode um)).2,
        [PipeEvent.llmGenerate (rag_mode um)], by rw [h], by simp, ?_⟩
      intro m' hm'
      exact hnollm m' _ hm'
  · intro hlen hfmt hdocs
    unfold rag_retrieve
    dsimp only
    rw [if_pos hlen, if_pos hfmt, if_pos hdocs]
    simp

/-! ## Claim C6 — web search fallback and filtering -/

/-- Claim C6 counterexample: the Bing attempt keeps a parsed entry whose
snippet is only 7 characters long (`_search_bing` checks only that the link
and the `p` element exist), refuting "every backend attempt discards parsed
entries missing a title, a url, or whose snippet is shorter than ~20
characters". -/
theorem web_filter_counterexample :
    web_search none
        (some [⟨some ("Заголовок", "http://u"), some "коротко"⟩]) none 5 3 =
      [⟨"Заголовок", "http://u", "коротко"⟩] ∧
    ("коротко" : String).length < 20 := by decide

/-- Claim C6 (amended): `search` tries DuckDuckGo Lite, Bing, Google in this
fixed order and returns the first non-empty backend result truncated to
`num_results` (empty when all three fail or return nothing); only the
DuckDuckGo attempt enforces the full non-empty-title/non-empty-url/
snippet-longer-than-20 filter, the Google attempt enforces only the snippet
filter, and the Bing attempt keeps every entry whose link and snippet
elements exist. -/
theorem web_search_amended (ddg : Option (List DDGRow)) (bing : Option (List BingItem))
    (google : Option (List GoogleItem)) (mr nr : Nat) :
    (search_ddg_lite ddg mr ≠ [] →
      web_search ddg bing google mr nr = (search_ddg_lite ddg mr).take nr) ∧
    (search_ddg_lite ddg mr = [] → search_bing bing mr ≠ [] →
      web_search ddg bing google mr nr = (search_bing bing mr).take nr) ∧
    (search_ddg_lite ddg mr = [] → search_bing bing mr = [] →
      search_google google mr ≠ [] →
      web_search ddg bing google mr nr = (search_google google mr).take nr) ∧
    (search_ddg_lite ddg mr = [] → search_bing bing mr = [] →
      search_google google mr = [] → web_search ddg bing google mr nr = []) ∧
    (∀ r ∈ search_ddg_lite ddg mr,
      r.title ≠ "" ∧ r.url ≠ "" ∧ 20 < r.snippet.length) ∧
    (∀ r ∈ search_google google mr, 20 < r.snippet.length) ∧
    (web_search ddg bing google mr nr).length ≤ nr := by
  refine ⟨?_, ?_, ?_, ?_, ?_, ?_, ?_⟩
  · intro h1
    unfold web_search
    rw [if_pos h1]
  · intro h1 h2
    unfold web_search
    rw [if_neg (by simp [h1]), if_pos h2]
  · intro h1 h2 h3
    unfold web_search
    rw [if_neg (by simp [h1]), if_neg (by simp [h2]), if_pos h3]
  · intro h1 h2 h3
    unfold web_search
    rw [if_neg (by simp [h1]), if_neg (by simp [h2]), if_neg (by simp [h3])]
  · intro r hr
    unfold search_ddg_lite at hr
    match ddg with
    | none => simp at hr
    | some rows =>
      unfold ddg_lite_results at hr
      have hr' := List.take_subset _ _ hr
      obtain ⟨row, _, heq⟩ := List.mem_filterMap.mp hr'
      dsimp only at heq
      split at heq
      · split at heq
        · split at heq
          · rename_i hcond
            simp only [Bool.and_eq_true, decide_eq_true_eq] at hcond
            cases heq
            exact ⟨hcond.1.1, hcond.1.2, hcond.2⟩
          · cases heq
        · cases heq
      · cases heq
  · intro r hr
    unfold search_google at hr
    match google with
    | none => simp at hr
    | some items =>
      unfold google_results at hr
      obtain ⟨g, _, heq⟩ := List.mem_filterMap.mp hr
      dsimp only at heq
      split at heq
      · split at heq
        · rename_i hcond
          simp only [Bool.and_eq_true, decide_eq_true_eq] at hcond
          cases heq
          exact hcond.2
        · cases heq
      · cases heq
  · unfold web_search
    dsimp only
    split
    · exact List.length_take_le _ _
    · split
      · exact List.length_take_le _ _
      · split
        · exact List.length_take_le _ _
        · simp

/-- Claim C6 amended witness: DuckDuckGo parses no rows, the Bing reply has
one well-formed entry — `search` falls back to Bing and returns that entry. -/
theorem web_search_amended_witness :
    web_search (some [])
        (some [⟨some ("Название", "http://bing.example"),
          some "сниппет из Бинга достаточно длинный"⟩]) none 5 2 =
      [⟨"Название", "http://bing.example", "сниппет из Бинга достаточно длинный"⟩] := by
  have H := web_search_amended (some [])
    (some [⟨some ("Название", "http://bing.example"),
      some "сниппет из Бинга достаточно длинный"⟩]) none 5 2
  rw [H.2.1 (by decide) (by decide)]
  decide

/-! ## Embedding-cache lemmas (claims C4, C5, C10) -/

/-- The loop body of `embed`'s second pass, with the backend vector of the
pair's own text. -/
def embed_step {E : Type} (h : String → Int) (backend : String → E) (cs : Nat)
    (acc : List (Option E) × List (Int × E)) (u : Nat × String) :
    List (Option E) × List (Int × E) :=
  (acc.1.set u.1 (some (backend u.2)), cache_step cs acc.2 (h u.2) (backend u.2))

theorem foldl_zip_map {A B C : Type _} (f : A → B) (g : C → A × B → C) :
    ∀ (us : List A) (init : C),
      (us.zip (us.map f)).foldl g init = us.foldl (fun acc u => g acc (u, f u)) init
  | [], _ => rfl
  | u :: us, init => by
    simp only [List.map_cons, List.zip_cons_cons, List.foldl_cons]
    exact foldl_zip_map f g us _

/-- `embed` on a non-empty text list is the second-pass fold over the
miss-set, started from the hit-filled result list. -/
theorem embed_eq_fold {E : Type} (h : String → Int) (backend : String → E) (cs : Nat)
    (cache : List (Int × E)) (texts : List String) (hne : texts ≠ []) :
    embed h backend cs cache texts =
      (texts.enum.filter (fun it => (cache_lookup cache (h it.2)).isNone)).foldl
        (embed_step h backend cs)
        (texts.map (fun t => cache_lookup cache (h t)), cache) := by
  unfold embed
  rw [if_neg (by simpa using hne)]
  dsimp only
  rw [foldl_zip_map]
  rfl

theorem embed_fold_fst_length {E : Type} (h : String → Int) (backend : String → E) (cs : Nat) :
    ∀ (us : List (Nat × String)) (base : List (Option E)) (c : List (Int × E)),
      (us.foldl (embed_step h backend cs) (base, c)).1.length = base.length
  | [], _, _ => rfl
  | u :: us, base, c => by
    rw [List.foldl_cons]
    dsimp only [embed_step]
    rw [embed_fold_fst_length h backend cs us _ _]
    exact List.length_set base u.1 _

theorem embed_fold_fst_notmem {E : Type} (h : String → Int) (backend : String → E) (cs : Nat) :
    ∀ (us : List (Nat × String)) (base : List (Option E)) (c : List (Int × E)) (i : Nat),
      (∀ u ∈ us, u.1 ≠ i) →
      (us.foldl (embed_step h backend cs) (base, c)).1[i]? = base[i]?
  | [], _, _, _, _ => rfl
  | u :: us, base, c, i, hni => by
    rw [List.foldl_cons]
    dsimp only [embed_step]
    rw [embed_fold_fst_notmem h backend cs us _ _ i
      (fun v hv => hni v (List.mem_cons_of_mem _ hv))]
    exact List.getElem?_set_ne (hni u (List.mem_cons_self u us))

theorem embed_fold_fst_mem {E : Type} (h : String → Int) (backend : String → E) (cs : Nat) :
    ∀ (us : List (Nat × String)) (base : List (Option E)) (c : List (Int × E))
      (i : Nat) (t : String),
      (us.map Prod.fst).Nodup → (i, t) ∈ us → i < base.length →
      (us.foldl (embed_step h backend cs) (base, c)).1[i]? = some (some (backend t))
  | [], _, _, _, _, _, hmem, _ => absurd hmem (List.not_mem_nil _)
  | u :: us, base, c, i, t, hnd, hmem, hlen => by
    rw [List.foldl_cons]
    dsimp only [embed_step]
    rcases List.mem_cons.mp hmem with heq | hmem'
    · have hu1 : u.1 = i := by rw [← heq]
      have hu2 : u.2 = t := by rw [← heq]
      have hni : ∀ v ∈ us, v.1 ≠ i := by
        intro v hv hvi
        have : u.1 ∉ us.map Prod.fst := (List.nodup_cons.mp (by simpa using hnd)).1
        exact this (by rw [hu1, ← hvi]; exact List.mem_map_of_mem Prod.fst hv)
      rw [embed_fold_fst_notmem h backend cs us _ _ i hni, hu1, hu2]
      exact List.getElem?_set_self hlen
    · have : i < (base.set u.1 (some (backend u.2))).length := by
        simpa using hlen
      exact embed_fold_fst_mem h backend cs us _ _ i t
        (by simpa using (List.nodup_cons.mp (by simpa using hnd)).2) hmem' this

theorem cache_insert_length_le {E : Type} (c : List (Int × E)) (k : Int) (v : E) :
    (cache_insert c k v).length ≤ c.length + 1 := by
  unfold cache_insert
  split
  · simp
  · simp

theorem cache_evict_length_le {E : Type} (c : List (Int × E)) :
    (cache_evict c).length ≤ c.length - 1 := by
  unfold cache_evict
  match c with
  | [] => simp
  | e :: rest => simpa using List.length_filter_le _ rest

theorem cache_step_length_le {E : Type} (cs : Nat) (c : List (Int × E)) (k : Int) (v : E)
    (hc : c.length ≤ cs) : (cache_step cs c k v).length ≤ cs := by
  unfold cache_step
  dsimp only
  split
  · have h1 := cache_insert_length_le c k v
    have h2 := cache_evict_length_le (cache_insert c k v)
    omega
  · omega

theorem embed_fold_snd_le {E : Type} (h : String → Int) (backend : String → E) (cs : Nat) :
    ∀ (us : List (Nat × String)) (base : List (Option E)) (c : List (Int × E)),
      c.length ≤ cs → (us.foldl (embed_step h backend cs) (base, c)).2.length ≤ cs
  | [], _, _, hc => hc
  | u :: us, base, c, hc => by
    rw [List.foldl_cons]
    dsimp only [embed_step]
    exact embed_fold_snd_le h backend cs us _ _ (cache_step_length_le cs c _ _ hc)

theorem enumFrom_fst_ge {α : Type _} :
    ∀ (l : List α) (n : Nat) (b : Nat × α), b ∈ l.enumFrom n → n ≤ b.1
  | x :: xs, n, b, hb => by
    rw [List.enumFrom_cons] at hb
    rcases List.mem_cons.mp hb with heq | hb'
    · rw [heq]
    · have := enumFrom_fst_ge xs (n + 1) b hb'
      omega

theorem pairwise_enumFrom_fst_lt {α : Type _} :
    ∀ (l : List α) (n : Nat), (l.enumFrom n).Pairwise (fun a b => a.1 < b.1)
  | [], _ => List.Pairwise.nil
  | x :: xs, n => by
    rw [List.enumFrom_cons]
    refine List.Pairwise.cons ?_ (pairwise_enumFrom_fst_lt xs (n + 1))
    intro b hb
    have := enumFrom_fst_ge xs (n + 1) b hb
    omega

theorem enum_filter_fst_nodup {α : Type _} (l : List α) (p : Nat × α → Bool) :
    ((l.enum.filter p).map Prod.fst).Nodup := by
  have hp : l.enum.Pairwise (fun a b => a.1 < b.1) := by
    rw [List.enum_eq_enumFrom]
    exact pairwise_enumFrom_fst_lt l 0
  exact (hp.filter p).map Prod.fst (fun a b hab => Nat.ne_of_lt hab)

theorem mem_enum_eq {α : Type _} (l : List α) (i : Nat) (a : α)
    (hm : (i, a) ∈ l.enum) : l[i]? = some a := by
  obtain ⟨j, hj⟩ := List.mem_iff_getElem?.mp hm
  rw [List.enum_eq_enumFrom, List.getElem?_enumFrom] at hj
  cases hx : l[j]? with
  | none => rw [hx] at hj; simp at hj
  | some b =>
    rw [hx] at hj
    simp only [Option.map_some', Option.some.injEq, Prod.mk.injEq] at hj
    obtain ⟨hji, hba⟩ := hj
    have hj' : j = i := by omega
    rw [← hj', hx, hba]

theorem enum_self_mem {α : Type _} (l : List α) (i : Nat) (hi : i < l.length) :
    (i, l[i]) ∈ l.enum := by
  apply List.getElem?_mem (n := i)
  rw [List.enum_eq_enumFrom, List.getElem?_enumFrom]
  simp [List.getElem?_eq_getElem hi]

theorem cache_lookup_none_any {E : Type} (c : List (Int × E)) (k : Int)
    (hn : cache_lookup c k = none) : c.any (fun p => p.1 == k) = false := by
  unfold cache_lookup at hn
  rw [Option.map_eq_none'] at hn
  rw [List.find?_eq_none] at hn
  rw [List.any_eq_false]
  exact hn

/-! ## Claim C5 — index preservation of `embed` -/

/-- Claim C5: `embed(texts)` returns a list of the same length as `texts`
in which position `i` holds exactly the vector for `texts[i]` — the cached
vector on a hit, the freshly generated backend vector on a miss — for every
index, however hits and misses are interleaved. -/
theorem embed_index_preservation {E : Type} (h : String → Int) (backend : String → E)
    (cs : Nat) (cache : List (Int × E)) (texts : List String) :
    (embed h backend cs cache texts).1.length = texts.length ∧
    ∀ i, (hi : i < texts.length) →
      (embed h backend cs cache texts).1[i]? =
        some (some (embed_expected h backend cache (texts[i]))) := by
  by_cases hne : texts = []
  · subst hne
    refine ⟨by simp [embed], ?_⟩
    intro i hi
    simp at hi
  · rw [embed_eq_fold h backend cs cache texts hne]
    refine ⟨by rw [embed_fold_fst_length]; simp, ?_⟩
    intro i hi
    cases hlk : cache_lookup cache (h (texts[i])) with
    | none =>
      have hmem : (i, texts[i]) ∈ texts.enum := enum_self_mem texts i hi
      have hmem' : (i, texts[i]) ∈
          texts.enum.filter (fun it => (cache_lookup cache (h it.2)).isNone) :=
        List.mem_filter.mpr ⟨hmem, by simp [hlk]⟩
      rw [embed_fold_fst_mem h backend cs _ _ _ i (texts[i])
        (enum_filter_fst_nodup texts _) hmem' (by simpa using hi)]
      have hexp : embed_expected h backend cache (texts[i]) = backend (texts[i]) := by
        unfold embed_expected
        rw [hlk]
      rw [hexp]
    | some v =>
      have hni : ∀ u ∈ texts.enum.filter
          (fun it => (cache_lookup cache (h it.2)).isNone), u.1 ≠ i := by
        intro u hu hui
        obtain ⟨humem, hp⟩ := List.mem_filter.mp hu
        have hu2 : texts[u.1]? = some u.2 := mem_enum_eq texts u.1 u.2 (by
          cases u
          exact humem)
        rw [hui, List.getElem?_eq_getElem hi] at hu2
        have : u.2 = texts[i] := by
          injection hu2 with hh
          exact hh.symm
        rw [this] at hp
        rw [hlk] at hp
        simp at hp
      rw [embed_fold_fst_notmem h backend cs _ _ _ i hni]
      rw [List.getElem?_map, List.getElem?_eq_getElem hi]
      have hexp : embed_expected h backend cache (texts[i]) = v := by
        unfold embed_expected
        rw [hlk]
      rw [hexp]
      simp only [Option.map_some']
      rw [hlk]

/-- Claim C5 witness: a two-text call with one hit (hash 1 cached) and one
miss; position 0 gets the cached vector, position 1 the backend vector. -/
theorem embed_index_preservation_witness :
    (embed (fun s => (s.length : Int)) (fun _ => (7 : Nat)) 10
      [(1, 5)] ["a", "bb"]).1[0]? = some (some 5) ∧
    (embed (fun s => (s.length : Int)) (fun _ => (7 : Nat)) 10
      [(1, 5)] ["a", "bb"]).1[1]? = some (some 7) := by
  have H := embed_index_preservation (fun s => (s.length : Int)) (fun _ => (7 : Nat)) 10
    [(1, 5)] ["a", "bb"]
  constructor
  · rw [H.2 0 (by decide)]
    decide
  · rw [H.2 1 (by decide)]
    decide

/-! ## Claim C10 — the cache never exceeds its capacity -/

/-- Claim C10: if the cache holds at most `cache_size` entries before an
`embed` call, it holds at most `cache_size` entries afterwards (each
insertion that pushes the size above the cap immediately evicts an entry),
and `clear_cache` trivially preserves the bound. -/
theorem embed_cache_capacity {E : Type} (h : String → Int) (backend : String → E)
    (cs : Nat) (cache : List (Int × E)) (texts : List String)
    (hc : cache.length ≤ cs) :
    (embed h backend cs cache texts).2.length ≤ cs ∧
    (clear_cache cache).length ≤ cs := by
  refine ⟨?_, by simp [clear_cache]⟩
  by_cases hne : texts = []
  · subst hne
    simpa [embed] using hc
  · rw [embed_eq_fold h backend cs cache texts hne]
    exact embed_fold_snd_le h backend cs _ _ _ hc

/-- Claim C10 witness: a full cache (2 entries, cap 2) stays at 2 entries
after embedding a fresh text. -/
theorem embed_cache_capacity_witness :
    (embed (fun s => (s.length : Int)) (fun _ => (7 : Nat)) 2
      [(1, 5), (2, 6)] ["ccc"]).2.length ≤ 2 :=
  (embed_cache_capacity (fun s => (s.length : Int)) (fun _ => (7 : Nat)) 2
    [(1, 5), (2, 6)] ["ccc"] (by decide)).1

/-! ## Claim C4 — FIFO eviction without access refresh -/

/-- Claim C4: a cache hit never changes the cache (no access-time refresh:
an all-hit `embed` call leaves it untouched), and inserting a fresh text
into a full cache evicts exactly the oldest-inserted (head) entry,
appending the new entry at the tail. -/
theorem embed_fifo_eviction {E : Type} (h : String → Int) (backend : String → E)
    (cs : Nat) (cache : List (Int × E)) (texts : List String) (t : String) :
    ((∀ u ∈ texts, (cache_lookup cache (h u)).isSome) →
      (embed h backend cs cache texts).2 = cache) ∧
    (cache.length = cs → 0 < cs → (cache.map Prod.fst).Nodup →
      cache_lookup cache (h t) = none →
      (embed h backend cs cache [t]).2 = cache.tail ++ [(h t, backend t)]) := by
  constructor
  · intro hall
    by_cases hne : texts = []
    · subst hne
      simp [embed]
    · rw [embed_eq_fold h backend cs cache texts hne]
      have hfe : texts.enum.filter
          (fun it => (cache_lookup cache (h it.2)).isNone) = [] := by
        rw [List.filter_eq_nil_iff]
        intro u hu
        have hu2 : texts[u.1]? = some u.2 := mem_enum_eq texts u.1 u.2 (by
          cases u
          exact hu)
        have : u.2 ∈ texts := List.getElem?_mem hu2
        have := hall u.2 this
        simp [Option.isNone_iff_eq_none]
        intro hcontra
        rw [hcontra] at this
        simp at this
      rw [hfe]
      rfl
  · intro hlen hpos hnd hlk
    obtain ⟨e, rest, rfl⟩ : ∃ e rest, cache = e :: rest := by
      cases cache with
      | nil => simp at hlen; omega
      | cons e rest => exact ⟨e, rest, rfl⟩
    have hufilter : ([t] : List String).enum.filter
        (fun it => (cache_lookup (e :: rest) (h it.2)).isNone) = [(0, t)] := by
      simp [List.filter, hlk]
    rw [embed_eq_fold h backend cs (e :: rest) [t] (by simp), hufilter]
    rw [List.foldl_cons, List.foldl_nil]
    dsimp only [embed_step]
    show cache_step cs (e :: rest) (h t) (backend t) = (e :: rest).tail ++ [(h t, backend t)]
    have hany : ((e :: rest).any (fun p => p.1 == h t)) = false :=
      cache_lookup_none_any (e :: rest) (h t) hlk
    have hins : cache_insert (e :: rest) (h t) (backend t) =
        (e :: rest) ++ [(h t, backend t)] := by
      unfold cache_insert
      rw [if_neg (by simp [hany])]
    unfold cache_step
    dsimp only
    rw [hins]
    rw [if_pos (by simp at hlen ⊢; omega)]
    show (rest ++ [(h t, backend t)]).filter (fun p => p.1 != e.1) =
      rest ++ [(h t, backend t)]
    apply List.filter_eq_self.mpr
    intro p hp
    rcases List.mem_append.mp hp with hp' | hp'
    · have hne : e.1 ∉ rest.map Prod.fst := (List.nodup_cons.mp (by simpa using hnd)).1
      have : p.1 ≠ e.1 := by
        intro hcontra
        exact hne (by rw [← hcontra]; exact List.mem_map_of_mem Prod.fst hp')
      simpa using this
    · have hpe : p = (h t, backend t) := by simpa using hp'
      -- `h t` is not a key of `e :: rest`, in particular not `e.1`
      rw [List.any_eq_false] at hany
      have hek : ¬ (e.1 == h t) = true := by
        simpa using hany e (List.mem_cons_self e rest)
      rw [hpe]
      simp only [bne_iff_ne, ne_eq]
      intro hcontra
      exact hek (by simp [hcontra])

/-- Claim C4 witness: cap 2, full insertion-ordered cache
`[(1, 5), (2, 6)]`; a hit on the first-inserted entry (`"a"`, hash 1)
leaves the cache unchanged — no refresh — and a subsequent fresh insertion
(`"ccc"`, hash 3) evicts exactly the first-inserted entry. -/
theorem embed_fifo_eviction_witness :
    (embed (fun s => (s.length : Int)) (fun _ => (7 : Nat)) 2
      [(1, 5), (2, 6)] ["a"]).2 = [(1, 5), (2, 6)] ∧
    (embed (fun s => (s.length : Int)) (fun _ => (7 : Nat)) 2
      [(1, 5), (2, 6)] ["ccc"]).2 = [(2, 6), (3, 7)] := by
  constructor
  · exact (embed_fifo_eviction (fun s => (s.length : Int)) (fun _ => (7 : Nat)) 2
      [(1, 5), (2, 6)] ["a"] "x").1 (by decide)
  · have := (embed_fifo_eviction (fun s => (s.length : Int)) (fun _ => (7 : Nat)) 2
      [(1, 5), (2, 6)] ["ccc"] "ccc").2 (by decide) (by decide) (by decide) (by decide)
    rw [this]
    decide

/-! ## Claim C1 — the continuation protocol -/

/-- Every call issued by the continuation loop carries half the original
token budget, and at most `fuel` calls are issued. -/
theorem cont_loop_calls (oracle : Nat → String) (enable : Bool) (mt : Nat)
    (temp : ℚ) (tk : Nat) :
    ∀ (fuel idx : Nat) (answer : String),
      (cont_loop oracle enable mt temp tk fuel idx answer).2.length ≤ fuel ∧
      ∀ c ∈ (cont_loop oracle enable mt temp tk fuel idx answer).2,
        c.maxTokens = mt / 2
  | 0, _, _ => ⟨Nat.le_refl 0, by intro c hc; simp [cont_loop] at hc⟩
  | fuel + 1, idx, answer => by
    rw [cont_loop]
    split
    · dsimp only
      split
      · exact ⟨by simp, by intro c hc; simp at hc; rw [hc]⟩
      · split
        · exact ⟨by simp, by intro c hc; simp at hc; rw [hc]⟩
        · dsimp only
          have ih := cont_loop_calls oracle enable mt temp tk fuel (idx + 1)
            (answer ++ "\n\n" ++ clean_answer (py_strip (oracle idx)))
          constructor
          · simpa using Nat.succ_le_succ ih.1
          · intro c hc
            simp only [List.mem_cons] at hc
            rcases hc with hc | hc
            · rw [hc]
            · exact ih.2 c hc
    · exact ⟨by simp, by intro c hc; simp at hc⟩

/-- With a full retry budget and an incomplete answer, the loop issues its
first continuation call; one or two calls are issued in total, and when the
first continuation is rejected (empty, duplicate, or shorter than 50
characters) the loop stops with the prior answer after exactly one call. -/
theorem cont_loop_first (oracle : Nat → String) (mt : Nat) (temp : ℚ) (tk : Nat)
    (idx : Nat) (answer : String) (hinc : looks_incomplete answer mt = true) :
    ((cont_loop oracle true mt temp tk 2 idx answer).2.length = 1 ∨
      (cont_loop oracle true mt temp tk 2 idx answer).2.length = 2) ∧
    (∀ c ∈ (cont_loop oracle true mt temp tk 2 idx answer).2,
      c.maxTokens = mt / 2) ∧
    ((py_strip (oracle idx) = "" ∨
        ci_substring (clean_answer (py_strip (oracle idx))) answer = true ∨
        (clean_answer (py_strip (oracle idx))).length < 50) →
      cont_loop oracle true mt temp tk 2 idx answer =
        (answer, [⟨cont_prompt answer, mt / 2, temp, tk⟩])) := by
  have hall := cont_loop_calls oracle true mt temp tk 2 idx answer
  rw [show (2 : Nat) = 1 + 1 from rfl, cont_loop]
  rw [if_pos (by simp [hinc])]
  dsimp only
  by_cases hc1 : py_strip (oracle idx) = ""
  · rw [if_pos hc1]
    exact ⟨Or.inl rfl, by intro c hc; simp at hc; rw [hc], fun _ => rfl⟩
  · rw [if_neg hc1]
    by_cases hc2 : (ci_substring (clean_answer (py_strip (oracle idx))) answer ||
        decide ((clean_answer (py_strip (oracle idx))).length < 50)) = true
    · rw [if_pos hc2]
      exact ⟨Or.inl rfl, by intro c hc; simp at hc; rw [hc], fun _ => rfl⟩
    · rw [if_neg hc2]
      dsimp only
      have hnext := cont_loop_calls oracle true mt temp tk 1 (idx + 1)
        (answer ++ "\n\n" ++ clean_answer (py_strip (oracle idx)))
      refine ⟨?_, ?_, ?_⟩
      · simp only [List.length_cons]
        omega
      · intro c hc
        simp only [List.mem_cons] at hc
        rcases hc with hc | hc
        · rw [hc]
        · exact hnext.2 c hc
      · intro hd
        exfalso
        simp only [Bool.or_eq_true, decide_eq_true_eq] at hc2
        push_neg at hc2
        rcases hd with hd | hd | hd
        · exact hc1 hd
        · exact absurd hd (by simpa using hc2.1)
        · exact absurd hd (by simpa using hc2.2)

/-- For the continuation-enabled modes, `generate` is the initial call
followed by the continuation loop on the cleaned first answer, with the
mode's configured token budget. -/
theorem generate_eq_cont (tbl : ModeTable) (oracle : Nat → String) (prompt mode : String)
    (hmode : mode = "default" ∨ mode = "detailed") (h0 : py_strip (oracle 0) ≠ "") :
    generate tbl oracle prompt mode =
      ((cont_loop oracle true (lookup_mode tbl mode).numPredict
          (lookup_mode tbl mode).temperature (lookup_mode tbl mode).topK 2 1
          (clean_answer (py_strip (oracle 0)))).1,
        ⟨SYSTEM_PROMPT ++ "\n\n" ++ prompt, (lookup_mode tbl mode).numPredict,
          (lookup_mode tbl mode).temperature, (lookup_mode tbl mode).topK⟩ ::
        (cont_loop oracle true (lookup_mode tbl mode).numPredict
          (lookup_mode tbl mode).temperature (lookup_mode tbl mode).topK 2 1
          (clean_answer (py_strip (oracle 0)))).2) := by
  rcases hmode with rfl | rfl
  · unfold generate
    simp only [MAX_CONTINUATION_RETRIES]
    rw [if_neg h0]
    norm_num
    simp only [if_neg (show ¬("default" : String) = "short" from by decide)]
    simp
  · unfold generate
    simp only [MAX_CONTINUATION_RETRIES]
    rw [if_neg h0]
    norm_num
    simp only [if_neg (show ¬("detailed" : String) = "short" from by decide)]
    simp

/-- Claim C1 counterexample: mode `"default"` with `num_predict = 20`
configured (a legal per-mode override), first answer 60 × `'a'` — incomplete
per the 0.85-ratio heuristic — and a 60 × `'b'` continuation that passes the
duplicate guard but still leaves the answer looking incomplete: the loop
issues a *second* continuation call (three `_call_ollama` requests in
total), refuting "exactly one continuation call is issued". -/
theorem continuation_counterexample :
    looks_incomplete
      (clean_answer (py_strip
        ((fun n => if n = 0 then String.mk (List.replicate 60 'a')
          else if n = 1 then String.mk (List.replicate 60 'b') else "") 0))) 20 = true ∧
    ((generate
        { default_mode_table with
            dflt := { default_default_cfg with numPredict := 20 } }
        (fun n => if n = 0 then String.mk (List.replicate 60 'a')
          else if n = 1 then String.mk (List.replicate 60 'b') else "")
        "q" "default").2.map (fun c => c.maxTokens)) = [20, 10, 10] := by
  constructor
  · decide
  · decide

/-- Claim C1 (amended): in modes `"default"` and `"detailed"`, when the
cleaned first answer looks incomplete, at least one and at most two
continuation calls are issued, each with half the original `maxTokens`
(integer division); if the first continuation is empty, a case-insensitive
substring of the prior answer, or shorter than 50 characters, it is
discarded: exactly one continuation call was made and the final answer
equals the pre-continuation text. -/
theorem continuation_amended (tbl : ModeTable) (oracle : Nat → String)
    (prompt mode : String) (hmode : mode = "default" ∨ mode = "detailed")
    (h0 : py_strip (oracle 0) ≠ "")
    (hinc : looks_incomplete (clean_answer (py_strip (oracle 0)))
      (lookup_mode tbl mode).numPredict = true) :
    ((generate tbl oracle prompt mode).2.length = 2 ∨
      (generate tbl oracle prompt mode).2.length = 3) ∧
    (∀ c ∈ (generate tbl oracle prompt mode).2.tail,
      c.maxTokens = (lookup_mode tbl mode).numPredict / 2) ∧
    ((py_strip (oracle 1) = "" ∨
        ci_substring (clean_answer (py_strip (oracle 1)))
          (clean_answer (py_strip (oracle 0))) = true ∨
        (clean_answer (py_strip (oracle 1))).length < 50) →
      (generate tbl oracle prompt mode).1 = clean_answer (py_strip (oracle 0)) ∧
      (generate tbl oracle prompt mode).2.length = 2) := by
  rw [generate_eq_cont tbl oracle prompt mode hmode h0]
  have H := cont_loop_first oracle (lookup_mode tbl mode).numPredict
    (lookup_mode tbl mode).temperature (lookup_mode tbl mode).topK 1
    (clean_answer (py_strip (oracle 0))) hinc
  refine ⟨?_, ?_, ?_⟩
  · rcases H.1 with h | h
    · left; simp [h]
    · right; simp [h]
  · intro c hc
    exact H.2.1 c (by simpa using hc)
  · intro hd
    rw [H.2.2 hd]
    exact ⟨rfl, rfl⟩

/-- Claim C1 amended witness: `num_predict = 20` for mode `"default"`,
first answer 60 × Cyrillic `'а'` (incomplete), first continuation 60 ×
Cyrillic `'А'` — an upper-case variant of the prior answer, so the
case-insensitive duplicate guard fires on Cyrillic text: the continuation
is discarded, exactly one continuation call is issued and the answer stays
the pre-continuation text. -/
theorem continuation_amended_witness :
    ci_substring (String.mk (List.replicate 60 'А'))
      (String.mk (List.replicate 60 'а')) = true ∧
    (generate
        { default_mode_table with
            dflt := { default_default_cfg with numPredict := 20 } }
        (fun n => if n = 0 then String.mk (List.replicate 60 'а')
          else if n = 1 then String.mk (List.replicate 60 'А') else "")
        "q" "default").1 = String.mk (List.replicate 60 'а') ∧
    (generate
        { default_mode_table with
            dflt := { default_default_cfg with numPredict := 20 } }
        (fun n => if n = 0 then String.mk (List.replicate 60 'а')
          else if n = 1 then String.mk (List.replicate 60 'А') else "")
        "q" "default").2.length = 2 := by
  have H := continuation_amended
    { default_mode_table with
        dflt := { default_default_cfg with numPredict := 20 } }
    (fun n => if n = 0 then String.mk (List.replicate 60 'а')
      else if n = 1 then String.mk (List.replicate 60 'А') else "")
    "q" "default" (Or.inl rfl) (by decide) (by decide)
  have hd := H.2.2 (Or.inr (Or.inl (by decide)))
  exact ⟨by decide, hd.1.trans (by decide), hd.2⟩

/-! ## Claims C3 and C7 — vector-store search -/

/-- The formatting loop, run from index `i` over the remaining documents
with in-range distance/metadata lists, is the filter-and-format pass over
the corresponding zipped tails. -/
theorem search_fold_spec (ds : List ℚ) (ms : List (Option String)) :
    ∀ (docs : List String) (i : Nat),
      ds.length = i + docs.length → ms.length = i + docs.length →
      search_fold (some ds) (some ms) i docs =
        Except.ok (search_spec docs (ds.drop i) (ms.drop i))
  | [], i, _, _ => by
    simp [search_fold, search_spec]
  | doc :: rest, i, hd, hm => by
    simp only [List.length_cons] at hd hm
    have hdi : i < ds.length := by omega
    have hmi : i < ms.length := by omega
    have hrec := search_fold_spec ds ms rest (i + 1) (by omega) (by omega)
    have hds : ds.drop i = ds[i] :: ds.drop (i + 1) := List.drop_eq_getElem_cons hdi
    have hms : ms.drop i = ms[i] :: ms.drop (i + 1) := List.drop_eq_getElem_cons hmi
    rw [search_fold, dif_pos hdi]
    dsimp only
    rw [dif_pos hmi, hrec, hds, hms]
    unfold search_spec
    rw [List.zip_cons_cons, List.zip_cons_cons, List.filterMap_cons]
    dsimp only
    by_cases hsim : SIMILARITY_CUTOFF ≤ 1 - ds[i]
    · rw [if_pos hsim, if_pos hsim]
    · rw [if_neg hsim, if_neg hsim]

/-- Claim C3: for a well-formed index reply, `search` returns exactly the
results whose similarity `1 - distance` is at least `0.35`, formatted as
`"[Источник: {source}]\n{text}"` and joined by blank lines in the index's
order (a result is included iff its similarity clears the threshold). -/
theorem db_threshold_filter (count : Nat)
    (embedQ : String → Except Unit (List (List ℚ)))
    (queryIdx : List ℚ → Nat → Except Unit QueryResult)
    (query : String) (top_k : Nat) (qe : List ℚ) (qrest : List (List ℚ))
    (docs : List String) (ds : List ℚ) (ms : List (Option String))
    (hq : py_strip query ≠ "") (hc : count ≠ 0)
    (he : embedQ query = Except.ok (qe :: qrest)) (hqe : qe ≠ [])
    (hx : queryIdx qe top_k = Except.ok ⟨docs, some ms, some ds⟩)
    (hd : ds.length = docs.length) (hm : ms.length = docs.length) :
    db_search count embedQ queryIdx query top_k =
      String.intercalate "\n\n" (search_spec docs ds ms) := by
  unfold db_search
  rw [if_neg hq, if_neg hc, he]
  dsimp only
  rw [if_neg hqe, hx]
  dsimp only
  by_cases hdocs : docs = []
  · subst hdocs
    rw [if_pos rfl]
    simp [search_spec]
    rfl
  · rw [if_neg hdocs]
    rw [search_fold_spec ds ms docs 0 (by omega) (by omega)]
    simp

/-- Claim C3 witness: two documents at distances `0.65` and `0.650001` —
similarities exactly `0.35` (kept) and `0.349999` (dropped); the output is
the formatted first document alone. -/
theorem db_threshold_filter_witness :
    ((0.35 : ℚ) ≤ 1 - 0.65) ∧ ¬ ((0.35 : ℚ) ≤ 1 - 0.650001) ∧
    db_search 1 (fun _ => Except.ok [[(1 : ℚ)]])
      (fun _ _ => Except.ok ⟨["документ А", "документ Б"],
        some [some "web_auto", some "manual"], some [0.65, 0.650001]⟩)
      "запрос" 5 = "[Источник: web_auto]\nдокумент А" := by
  refine ⟨by norm_num, by norm_num, ?_⟩
  rw [db_threshold_filter 1 (fun _ => Except.ok [[(1 : ℚ)]])
    (fun _ _ => Except.ok ⟨["документ А", "документ Б"],
      some [some "web_auto", some "manual"], some [0.65, 0.650001]⟩)
    "запрос" 5 [(1 : ℚ)] [] ["документ А", "документ Б"] [0.65, 0.650001]
    [some "web_auto", some "manual"] (by decide) (by decide) rfl (by decide) rfl
    (by decide) (by decide)]
  unfold search_spec
  norm_num [SIMILARITY_CUTOFF, List.filterMap_cons, List.zip_cons_cons]
  decide

/-- Claim C7: `search` returns `""` immediately for a blank query or an
empty store, and never raises — an error (or degenerate result) from the
query-embedding call, from the index query, or an out-of-range access in
the formatting loop each yield `""`. -/
theorem db_search_never_raises (count : Nat)
    (embedQ : String → Except Unit (List (List ℚ)))
    (queryIdx : List ℚ → Nat → Except Unit QueryResult)
    (query : String) (top_k : Nat) :
    (py_strip query = "" → db_search count embedQ queryIdx query top_k = "") ∧
    (count = 0 → db_search count embedQ queryIdx query top_k = "") ∧
    (embedQ query = Except.error () →
      db_search count embedQ queryIdx query top_k = "") ∧
    (embedQ query = Except.ok [] →
      db_search count embedQ queryIdx query top_k = "") ∧
    (∀ qe l, embedQ query = Except.ok (qe :: l) →
      queryIdx qe top_k = Except.error () →
      db_search count embedQ queryIdx query top_k = "") ∧
    (∀ qe l res, embedQ query = Except.ok (qe :: l) →
      queryIdx qe top_k = Except.ok res →
      search_fold res.distances res.metadatas 0 res.documents = Except.error () →
      db_search count embedQ queryIdx query top_k = "") := by
  refine ⟨?_, ?_, ?_, ?_, ?_, ?_⟩
  · intro hq
    unfold db_search
    rw [if_pos hq]
  · intro hc
    unfold db_search
    by_cases hq : py_strip query = ""
    · rw [if_pos hq]
    · rw [if_neg hq, if_pos hc]
  · intro he
    unfold db_search
    split
    · rfl
    · split
      · rfl
      · rw [he]
  · intro he
    unfold db_search
    split
    · rfl
    · split
      · rfl
      · rw [he]
  · intro qe l he hx
    unfold db_search
    split
    · rfl
    · split
      · rfl
      · rw [he]
        dsimp only
        by_cases hqe : qe = []
        · rw [if_pos hqe]
        · rw [if_neg hqe, hx]
  · intro qe l res he hx hf
    unfold db_search
    split
    · rfl
    · split
      · rfl
      · rw [he]
        dsimp only
        by_cases hqe : qe = []
        · rw [if_pos hqe]
        · rw [if_neg hqe, hx]
          dsimp only
          by_cases hdocs : res.documents = []
          · rw [if_pos hdocs]
          · rw [if_neg hdocs, hf]

/-- Claim C7 witness: a blank query, an empty store, and a raising
embedding backend each yield `""` at concrete inputs. -/
theorem db_search_never_raises_witness :
    db_search 4 (fun _ => Except.error ()) (fun _ _ => Except.error ()) "  " 5 = "" ∧
    db_search 0 (fun _ => Except.ok [[(1 : ℚ)]]) (fun _ _ => Except.error ()) "запрос" 5 = "" ∧
    db_search 4 (fun _ => Except.error ()) (fun _ _ => Except.error ()) "запрос" 5 = "" := by
  refine ⟨?_, ?_, ?_⟩
  · exact (db_search_never_raises 4 (fun _ => Except.error ())
      (fun _ _ => Except.error ()) "  " 5).1 (by decide)
  · exact (db_search_never_raises 0 (fun _ => Except.ok [[(1 : ℚ)]])
      (fun _ _ => Except.error ()) "запрос" 5).2.1 rfl
  · exact (db_search_never_raises 4 (fun _ => Except.error ())
      (fun _ _ => Except.error ()) "запрос" 5).2.2.1 rfl

/-! ## Claim C9 — what retrieval actually consults -/

/-- Retrieval only reads `web_search_results` from the mode configuration. -/
theorem rag_retrieve_congr (tbl tbl' : ModeTable) (dbOracle : String → Nat → String)
    (webOracle : Nat → List SearchResult) (pok : Bool) (query mode : String)
    (hw : (lookup_mode tbl mode).webSearchResults =
      (lookup_mode tbl' mode).webSearchResults) :
    rag_retrieve tbl dbOracle webOracle pok query mode =
      rag_retrieve tbl' dbOracle webOracle pok query mode := by
  simp only [rag_retrieve]
  rw [hw]

/-- A web-search call appears in the retrieval trace exactly when the
database context does not exceed 1200 characters. -/
theorem rag_retrieve_web_iff (tbl : ModeTable) (dbOracle : String → Nat → String)
    (webOracle : Nat → List SearchResult) (pok : Bool) (query mode : String) :
    (∃ n, PipeEvent.webSearch n ∈ (rag_retrieve tbl dbOracle webOracle pok query mode).2) ↔
      ¬ (1200 < (rag_db_context dbOracle query).length) := by
  constructor
  · rintro ⟨n, hn⟩
    by_cases hlen : 1200 < (rag_db_context dbOracle query).length
    · exfalso
      simp only [rag_retrieve] at hn
      rw [if_neg (by simpa using hlen)] at hn
      simp at hn
    · exact hlen
  · intro hlen
    simp only [rag_retrieve]
    rw [if_pos hlen]
    refine ⟨(lookup_mode tbl mode).webSearchResults, ?_⟩
    split
    · split
      · simp
      · simp
    · simp

/-- For a non-blank query, the trace of `process` is the retrieval trace,
optionally followed by the generation call. -/
theorem rag_process_snd_nonblank (tbl : ModeTable) (dbOracle : String → Nat → String)
    (webOracle : Nat → List SearchResult)
    (llmOracle : String → String → String → String) (pok : Bool)
    (query : String) (um : Option String) (hq : py_strip query ≠ "") :
    (rag_process tbl dbOracle webOracle llmOracle pok query um).2 =
      (rag_retrieve tbl dbOracle webOracle pok query (rag_mode um)).2 ∨
    (rag_process tbl dbOracle webOracle llmOracle pok query um).2 =
      (rag_retrieve tbl dbOracle webOracle pok query (rag_mode um)).2 ++
        [PipeEvent.llmGenerate (rag_mode um)] := by
  simp only [rag_process]
  rw [if_neg hq]
  split
  · left; rfl
  · right; rfl

/-- Claim C9: for every non-blank query, `process` queries the vector store
with `top_k = 10`, decides whether to run web search solely by whether the
store's context exceeds 1200 characters, and two mode tables agreeing on
`web_search_results` produce identical behaviour — the `db_search`,
`web_search` flags and `top_k` of the mode configuration are never
consulted by retrieval. -/
theorem retrieval_ignores_mode_flags (tbl tbl' : ModeTable)
    (dbOracle : String → Nat → String) (webOracle : Nat → List SearchResult)
    (llmOracle : String → String → String → String) (pok : Bool)
    (query : String) (um : Option String)
    (hw : ∀ m, (lookup_mode tbl m).webSearchResults =
      (lookup_mode tbl' m).webSearchResults)
    (hq : py_strip query ≠ "") :
    rag_process tbl dbOracle webOracle llmOracle pok query um =
      rag_process tbl' dbOracle webOracle llmOracle pok query um ∧
    PipeEvent.dbSearch 10 ∈
      (rag_process tbl dbOracle webOracle llmOracle pok query um).2 ∧
    ((∃ n, PipeEvent.webSearch n ∈
        (rag_process tbl dbOracle webOracle llmOracle pok query um).2) ↔
      ¬ (1200 < (rag_db_context dbOracle query).length)) := by
  refine ⟨?_, ?_, ?_⟩
  · simp only [rag_process]
    rw [rag_retrieve_congr tbl tbl' dbOracle webOracle pok query (rag_mode um) (hw _)]
  · have hdb : PipeEvent.dbSearch 10 ∈
        (rag_retrieve tbl dbOracle webOracle pok query (rag_mode um)).2 := by
      rcases rag_retrieve_trace_cases tbl dbOracle webOracle pok query (rag_mode um) with
        h | ⟨n, h⟩ | ⟨n, k, h⟩ <;> rw [h] <;> simp
    rcases rag_process_snd_nonblank tbl dbOracle webOracle llmOracle pok query um hq with
      h | h <;> rw [h]
    · exact hdb
    · exact List.mem_append.mpr (Or.inl hdb)
  · rw [← rag_retrieve_web_iff tbl dbOracle webOracle pok query (rag_mode um)]
    rcases rag_process_snd_nonblank tbl dbOracle webOracle llmOracle pok query um hq with
      h | h <;> rw [h]
    constructor
    · rintro ⟨n, hn⟩
      refine ⟨n, ?_⟩
      rcases List.mem_append.mp hn with hmem | hmem
      · exact hmem
      · simp at hmem
    · rintro ⟨n, hn⟩
      exact ⟨n, List.mem_append.mpr (Or.inl hn)⟩

/-- Claim C9 witness: flipping `db_search`/`web_search` off and setting
`top_k = 99` (keeping `web_search_results`) leaves `process` unchanged on a
concrete run, which still queries the store with `top_k = 10`. -/
theorem retrieval_ignores_mode_flags_witness :
    rag_process default_mode_table (fun _ _ => "") (fun _ => [])
        (fun _ _ _ => "ок") true "вопрос" none =
      rag_process
        (ModeTable.mk (ModeCfg.mk 300 0.2 99 false false 2)
          (ModeCfg.mk 1000 0.5 99 false false 3)
          (ModeCfg.mk 2000 0.7 99 false false 5))
        (fun _ _ => "") (fun _ => []) (fun _ _ _ => "ок") true "вопрос" none ∧
    PipeEvent.dbSearch 10 ∈
      (rag_process default_mode_table (fun _ _ => "") (fun _ => [])
        (fun _ _ _ => "ок") true "вопрос" none).2 := by
  have H := retrieval_ignores_mode_flags default_mode_table
    (ModeTable.mk (ModeCfg.mk 300 0.2 99 false false 2)
      (ModeCfg.mk 1000 0.5 99 false false 3)
      (ModeCfg.mk 2000 0.7 99 false false 5))
    (fun _ _ => "") (fun _ => []) (fun _ _ _ => "ок") true "вопрос" none
    (by
      intro m
      unfold lookup_mode
      split
      · rfl
      · split
        · rfl
        · split
          · rfl
          · rfl)
    (by decide)
  exact ⟨H.1, H.2.1⟩

/-- Claim C2 amended witness: empty store, one valid web result — the
answer is independent of the persistence outcome, and the failing persist
call (tagged `"web_auto"`, 1 document) is part of the retrieval trace. -/
theorem persist_amended_witness :
    (rag_process default_mode_table (fun _ _ => "")
        (fun _ => [⟨"Заголовок результата", "http://example.com",
          "Достаточно длинный фрагмент текста для фильтра"⟩])
        (fun _ _ _ => "ответ") true "вопрос" none).1 =
      (rag_process default_mode_table (fun _ _ => "")
        (fun _ => [⟨"Заголовок результата", "http://example.com",
          "Достаточно длинный фрагмент текста для фильтра"⟩])
        (fun _ _ _ => "ответ") false "вопрос" none).1 ∧
    PipeEvent.persist "web_auto" 1 false ∈
      (rag_retrieve default_mode_table (fun _ _ => "")
        (fun _ => [⟨"Заголовок результата", "http://example.com",
          "Достаточно длинный фрагмент текста для фильтра"⟩])
        false "вопрос" "default").2 := by
  have H := persist_amended default_mode_table (fun _ _ => "")
    (fun _ => [⟨"Заголовок результата", "http://example.com",
      "Достаточно длинный фрагмент текста для фильтра"⟩])
    (fun _ _ _ => "ответ") "вопрос" none "default" false
  refine ⟨H.1, ?_⟩
  have hm := H.2.2.2 (by decide) (by decide) (by decide)
  have hn : (web_docs (format_web
      ((fun _ => [(⟨"Заголовок результата", "http://example.com",
        "Достаточно длинный фрагмент текста для фильтра"⟩ : SearchResult)])
        (lookup_mode default_mode_table "default").webSearchResults))).length = 1 := by
    decide
  rw [hn] at hm
  exact hm

end NeuralSage
